import Mathlib

/-!
Verification of `src/TaskSnap/fix_project.py`.

The script prints a checklist of files to add to an Xcode project. We
embed it shallowly: each Python `print(s)` (where `s` has no embedded
newline) contributes one line of standard output, a `print()` contributes
an empty line, and a `print("\n" + s)` contributes an empty line followed
by the line `s`. The whole run is modelled as the list of lines written
to standard output, in order.
-/

/-- A file-registration descriptor: one entry of the `new_files` list in
`fix_project.py` (a `(filepath, file_type, group_path)` triple). -/
structure FileDesc where
  path : String
  kind : String
  group : List String
deriving DecidableEq, Repr

/-- `add_file_to_project` from `fix_project.py`, lines 13-23: the four
lines it prints (path line, type line, group line, blank line). -/
def add_file_to_project (d : FileDesc) : List String :=
  ["Would add: " ++ d.path,
   "  Type: " ++ d.kind,
   "  Group: " ++ String.intercalate "/" d.group,
   ""]

/-- The separator line `"=" * 60` used by the script. -/
def sepLine : String := String.mk (List.replicate 60 '=')

/-- The two header lines printed before the per-file blocks
(`fix_project.py`, lines 71-72). -/
def headerLines : List String :=
  ["Files that need to be added to Xcode project:", sepLine]

/-- The closing help text printed after the per-file loop
(`fix_project.py`, lines 76-90), line by line. -/
def closingLines : List String :=
  ["", sepLine,
   "", "IMPORTANT: Xcode project files should be modified by Xcode,",
   "not manually edited. Options:",
   "",
   "1. EASIEST: Open Xcode and drag files into the project",
   "   - Open TaskSnap.xcodeproj in Xcode",
   "   - Drag new files into appropriate groups",
   "",
   "2. Use xcodeproj gem (if installed):",
   "   gem install xcodeproj",
   "   ruby -rxcodeproj -e \x27...\x27",
   "",
   "3. Regenerate project with tuist/xcodegen",
   "",
   "Recommended: Use Option 1 (drag in Xcode)"]

/-- The static `new_files` list from `fix_project.py`, lines 26-69. -/
def new_files : List FileDesc := [
  ⟨"TaskSnap/Views/LaunchScreen.swift", "sourcecode.swift", ["TaskSnap", "Views"]⟩,
  ⟨"TaskSnap/Views/AnimationView.swift", "sourcecode.swift", ["TaskSnap", "Views"]⟩,
  ⟨"TaskSnap/Views/AnimationSettingsView.swift", "sourcecode.swift", ["TaskSnap", "Views"]⟩,
  ⟨"TaskSnap/Views/PatternInsightsView.swift", "sourcecode.swift", ["TaskSnap", "Views"]⟩,
  ⟨"TaskSnap/Views/SpaceDetailView.swift", "sourcecode.swift", ["TaskSnap", "Views"]⟩,
  ⟨"TaskSnap/Views/SharedSpacesListView.swift", "sourcecode.swift", ["TaskSnap", "Views"]⟩,
  ⟨"TaskSnap/Views/BackupRestoreView.swift", "sourcecode.swift", ["TaskSnap", "Views"]⟩,
  ⟨"TaskSnap/Views/ClutterScoreView.swift", "sourcecode.swift", ["TaskSnap", "Views"]⟩,
  ⟨"TaskSnap/Views/AnalyticsView.swift", "sourcecode.swift", ["TaskSnap", "Views"]⟩,
  ⟨"TaskSnap/Views/BodyDoublingRoomView.swift", "sourcecode.swift", ["TaskSnap", "Views"]⟩,
  ⟨"TaskSnap/Views/ThemePickerView.swift", "sourcecode.swift", ["TaskSnap", "Views"]⟩,
  ⟨"TaskSnap/Views/LoadingView.swift", "sourcecode.swift", ["TaskSnap", "Views"]⟩,
  ⟨"TaskSnap/Views/ErrorStateView.swift", "sourcecode.swift", ["TaskSnap", "Views"]⟩,
  ⟨"TaskSnap/Services/SoundEffectManager.swift", "sourcecode.swift", ["TaskSnap", "Services"]⟩,
  ⟨"TaskSnap/Services/FocusSoundManager.swift", "sourcecode.swift", ["TaskSnap", "Services"]⟩,
  ⟨"TaskSnap/Services/PatternRecognitionService.swift", "sourcecode.swift", ["TaskSnap", "Services"]⟩,
  ⟨"TaskSnap/Services/ShareManager.swift", "sourcecode.swift", ["TaskSnap", "Services"]⟩,
  ⟨"TaskSnap/Services/TaskSuggestionService.swift", "sourcecode.swift", ["TaskSnap", "Services"]⟩,
  ⟨"TaskSnap/Services/BackupService.swift", "sourcecode.swift", ["TaskSnap", "Services"]⟩,
  ⟨"TaskSnap/Services/SmartCategoryService.swift", "sourcecode.swift", ["TaskSnap", "Services"]⟩,
  ⟨"TaskSnap/Services/ClutterScoreService.swift", "sourcecode.swift", ["TaskSnap", "Services"]⟩,
  ⟨"TaskSnap/Services/BodyDoublingManager.swift", "sourcecode.swift", ["TaskSnap", "Services"]⟩,
  ⟨"TaskSnap/Services/ThemeManager.swift", "sourcecode.swift", ["TaskSnap", "Services"]⟩,
  ⟨"TaskSnap/Services/NotificationManager.swift", "sourcecode.swift", ["TaskSnap", "Services"]⟩,
  ⟨"TaskSnap/Services/SyncManager.swift", "sourcecode.swift", ["TaskSnap", "Services"]⟩,
  ⟨"TaskSnap/Utils/PressableButton.swift", "sourcecode.swift", ["TaskSnap", "Utils"]⟩,
  ⟨"TaskSnap/Utils/AnimatedToggle.swift", "sourcecode.swift", ["TaskSnap", "Utils"]⟩,
  ⟨"TaskSnap/Utils/AccessibilitySettings.swift", "sourcecode.swift", ["TaskSnap", "Utils"]⟩,
  ⟨"TaskSnap/Utils/DynamicTypeModifier.swift", "sourcecode.swift", ["TaskSnap", "Utils"]⟩,
  ⟨"TaskSnap/Utils/HighContrastColors.swift", "sourcecode.swift", ["TaskSnap", "Utils"]⟩,
  ⟨"TaskSnap/ViewModels/AnalyticsViewModel.swift", "sourcecode.swift", ["TaskSnap", "ViewModels"]⟩,
  ⟨"TaskSnap/Models/FocusSession.swift", "sourcecode.swift", ["TaskSnap", "Models"]⟩,
  ⟨"TaskSnap/Models/CelebrationTheme.swift", "sourcecode.swift", ["TaskSnap", "Models"]⟩]

/-- The full report the script prints for a descriptor list: header, then
one block per descriptor in list order (the `for` loop at lines 73-74),
then the closing help text. -/
def report (files : List FileDesc) : List String :=
  headerLines ++ files.flatMap add_file_to_project ++ closingLines

/-- The whole script's standard output as a list of lines, parameterized
by the stream of 128-bit values `uuid.uuid4` would return on successive
calls. The main body (lines 71-90) never calls `generate_uuid`, so the
stream is never consulted. -/
def program_output (_uuids : Nat → Nat) : List String :=
  report new_files

/-- A run of the script: the script has no `raise`, no `sys.exit`, no
fallible operation (standard-output writes are treated as infallible), so
a run yields the output lines and the process exit code `0`. -/
def run_program (uuids : Nat → Nat) : Except String (List String × Nat) :=
  Except.ok (program_output uuids, 0)

/-- Ambient mutable state an "add file" operation could touch: the
project file's contents and a file system (path, contents pairs). -/
structure ProjectState where
  pbxproj : String
  filesystem : List (String × String)
deriving DecidableEq

/-- Effectful view of `add_file_to_project`: ambient state in, (new
state, printed lines) out. The Python function body is four `print`
calls and nothing else, so the state passes through unchanged. -/
def add_file_to_project_run (s : ProjectState) (d : FileDesc) :
    ProjectState × List String :=
  (s, add_file_to_project d)

/-- The directory portion of a slash-separated path: the path with the
trailing `/<filename>` removed (drop characters from the end up to and
including the last slash). -/
def dirname (p : String) : String :=
  String.mk (((p.data.reverse.dropWhile (fun c => c ≠ '/')).drop 1).reverse)

/-- The lowercase hexadecimal digit for `n < 16`, as produced by
Python's `%x` formatting used by `uuid.UUID.hex`. -/
def hexDigit (n : Nat) : Char :=
  if n < 10 then Char.ofNat (48 + n) else Char.ofNat (87 + n)

/-- The 32-character lowercase hex rendering of a 128-bit integer, most
significant digit first and zero-padded: this is `uuid.uuid4().hex` for
a uuid whose 128-bit integer value is `u`. -/
def toHex32 (u : Nat) : List Char :=
  (List.range 32).map (fun i => hexDigit (u / 16 ^ (31 - i) % 16))

/-- `generate_uuid` from `fix_project.py`, lines 9-11, on the 128-bit
integer value `u` of the drawn uuid: `uuid.uuid4().hex[:24].upper()`. -/
def generate_uuid (u : Nat) : String :=
  String.mk (((toHex32 u).take 24).map Char.toUpper)

/-- Whether a character is an uppercase hexadecimal digit (0-9 or A-F). -/
def isUpperHexDigit (c : Char) : Bool :=
  decide ((48 ≤ c.toNat ∧ c.toNat ≤ 57) ∨ (65 ≤ c.toNat ∧ c.toNat ≤ 70))

/-- Claim C1: the report on the fixed `new_files` list (length 33)
consists of the header, then exactly 33 per-file blocks — one per
descriptor, in list order, each being the three content lines followed
by a blank line — then the closing text. -/
theorem report_has_33_ordered_blocks :
    new_files.length = 33 ∧
    report new_files =
      headerLines ++
        (new_files.map (fun d =>
          ["Would add: " ++ d.path,
           "  Type: " ++ d.kind,
           "  Group: " ++ String.intercalate "/" d.group] ++ [""])).flatten ++
        closingLines := by
  exact ⟨rfl, rfl⟩

/-- Claim C2: on the descriptor `{path := "A/B.ext", kind :=
"source-code:x", group := ["A"]}`, `add_file_to_project` prints exactly
the three stated lines followed by a blank line. -/
theorem add_file_example :
    add_file_to_project ⟨"A/B.ext", "source-code:x", ["A"]⟩ =
      ["Would add: A/B.ext", "  Type: source-code:x", "  Group: A", ""] := by
  rfl

/-- Claim C3: for every descriptor, the second printed line is the
`Type` label followed by the descriptor's kind string verbatim. -/
theorem type_line_is_kind (d : FileDesc) :
    (add_file_to_project d).get? 1 = some ("  Type: " ++ d.kind) := rfl

/-- Claim C4: for every descriptor, the third printed line is the
`Group` label followed by the group segments joined with `/`, verbatim;
in the degenerate case of an empty group list the joined text is empty
and the line is printed anyway (nothing rejects the empty group). -/
theorem group_line_is_joined_group (d : FileDesc) :
    (add_file_to_project d).get? 2 =
        some ("  Group: " ++ String.intercalate "/" d.group) ∧
    (add_file_to_project ⟨d.path, d.kind, []⟩).get? 2 = some "  Group: " :=
  ⟨rfl, rfl⟩

/-- Claim C5: the closing help text is one fixed constant block of
lines, independent of the descriptor list's contents and length: for
every list (the empty one included) the report ends with exactly
`closingLines`. -/
theorem closing_text_constant (files : List FileDesc) :
    (report files).drop ((report files).length - closingLines.length) =
      closingLines := by
  have h : report files =
      (headerLines ++ files.flatMap add_file_to_project) ++ closingLines := by
    simp [report]
  rw [h, List.length_append, Nat.add_sub_cancel]
  exact List.drop_left _ _

/-- Claim C6: the script's output does not depend on the values drawn by
`uuid.uuid4` (which `generate_uuid` would consume — it is never invoked
by the main body), so two runs on the same descriptor list produce
byte-identical output whatever randomness each run sees. -/
theorem output_independent_of_uuid_randomness (f g : Nat → Nat) :
    program_output f = program_output g := rfl

/-- Claim C7: the "add" operation mutates no state: for every ambient
state and every descriptor it returns the state unchanged, and its only
effect is the printed lines of `add_file_to_project`. -/
theorem add_file_mutates_no_state (s : ProjectState) (d : FileDesc) :
    (add_file_to_project_run s d).1 = s ∧
    (add_file_to_project_run s d).2 = add_file_to_project d :=
  ⟨rfl, rfl⟩

/-- Claim C8: the program always succeeds: for every uuid stream the run
returns `ok` (no failure path exists), the output is the single pass
over the fixed list, and the exit code is `0`. -/
theorem program_always_succeeds (f : Nat → Nat) :
    run_program f = Except.ok (report new_files, 0) := rfl

/-- Claim C9: every one of the 33 static descriptors has kind exactly
`"sourcecode.swift"`, and its group segments joined with `/` equal the
directory portion of its path. -/
theorem new_files_kind_and_group_invariant :
    ∀ d ∈ new_files,
      d.kind = "sourcecode.swift" ∧
      String.intercalate "/" d.group = dirname d.path := by
  decide

/-- Witness for claim C9 at the first descriptor of the list. -/
theorem new_files_kind_and_group_invariant_witness :
    (⟨"TaskSnap/Views/LaunchScreen.swift", "sourcecode.swift",
        ["TaskSnap", "Views"]⟩ : FileDesc).kind = "sourcecode.swift" ∧
    String.intercalate "/"
        (⟨"TaskSnap/Views/LaunchScreen.swift", "sourcecode.swift",
          ["TaskSnap", "Views"]⟩ : FileDesc).group =
      dirname (⟨"TaskSnap/Views/LaunchScreen.swift", "sourcecode.swift",
          ["TaskSnap", "Views"]⟩ : FileDesc).path :=
  new_files_kind_and_group_invariant _ (List.Mem.head _)

/-- Helper for claim C10: uppercasing any of the sixteen lowercase hex
digits yields an uppercase hexadecimal digit. -/
theorem hexDigit_upper_ok : ∀ m, m < 16 →
    isUpperHexDigit (Char.toUpper (hexDigit m)) = true := by
  decide

/-- Claim C10: for every 128-bit uuid value, `generate_uuid` returns a
string of exactly 24 characters, each an uppercase hexadecimal digit. -/
theorem generate_uuid_format (u : Nat) (hu : u < 2 ^ 128) :
    (generate_uuid u).length = 24 ∧
    ∀ c ∈ (generate_uuid u).data, isUpperHexDigit c = true := by
  constructor
  · simp [generate_uuid, String.length, toHex32]
  · intro c hc
    simp only [generate_uuid, List.mem_map] at hc
    obtain ⟨a, ha, rfl⟩ := hc
    have ha2 := List.mem_of_mem_take ha
    simp only [toHex32, List.mem_map] at ha2
    obtain ⟨i, _, rfl⟩ := ha2
    exact hexDigit_upper_ok _ (Nat.mod_lt _ (by norm_num))

/-- Witness for claim C10 at the uuid value 0. -/
theorem generate_uuid_format_witness :
    (0 : Nat) < 2 ^ 128 ∧
    ((generate_uuid 0).length = 24 ∧
      ∀ c ∈ (generate_uuid 0).data, isUpperHexDigit c = true) :=
  ⟨by norm_num, generate_uuid_format 0 (by norm_num)⟩
